import Mathlib

/-!
Shallow embedding of the helper code of the applied groundwater modelling
course repository, together with theorems settling the specification
claims about it.

The repository code embedded here:
* the quiz functions check_task1 .. check_task3 of
  exercise01/exercise01.ipynb, which read one interactive answer,
  lowercase and strip it, compare it with a stored answer string,
  print a verdict and return a score;
* the Darcy assessment notebook
  (00_prerequisites/assessment/03_assess_darcys_law.ipynb): the pure
  helper calculate_flow, the AnalysisChallenge velocity and travel time
  computation, and the EvaluationExercise class with its scenario list,
  present_scenario method and the check_answer submit handler;
* the calculate_hydraulic_conductivity documentation-template function
  of .github/workflows/copilot_instructions.md;
* the climate data cell of the introduction notebook, which checks a
  path for existence, prints a message when it is missing, and calls
  read_climate_data either way.

Observable behaviour (prints, interactive input reads, widget output
clearing, calls into the external support library) is modelled as a
trace of events.  Python numbers are modelled as rationals; Python
exceptions (ZeroDivisionError, IndexError) as Except / Option error
values.  Methods that in Python could mutate their object are modelled
by explicit state passing: each returns the state of the object after
the call.
-/

/-- One observable effect of running a notebook cell or handler. -/
inductive Event where
  | print (s : String)
  | input (prompt : String)
  | clear
  | call (f : String)
deriving DecidableEq, Repr

/-- Number of interactive input reads in a trace. -/
def countInputs (tr : List Event) : Nat :=
  tr.countP (fun e => match e with
    | Event.input _ => true
    | _ => false)

/-- Python str.lower: lowercase every character. -/
def py_lower (s : String) : String := ⟨s.data.map Char.toLower⟩

/-- Python str.strip with no argument: remove leading and trailing
whitespace. -/
def py_strip (s : String) : String :=
  ⟨((s.data.dropWhile Char.isWhitespace).reverse.dropWhile Char.isWhitespace).reverse⟩

/-- check_task1 of exercise01.ipynb.  The single question is printed,
one answer is read from the user, lowercased and stripped, echoed back,
and compared with the stored answer string "1.7"; the function returns
the score together with the trace of its observable effects. -/
def check_task1 (response : String) : Nat × List Event :=
  let answer := py_strip (py_lower response)
  let base := [Event.print "Area of the Tsalet catchement in km^2 (rounding to 1 decimal)?",
               Event.input "Your answer in km^2 (eg. 1.4): ",
               Event.print ("Your answer : " ++ answer)]
  if answer = "1.7" then
    (1, base ++ [Event.print "Correct!"])
  else
    (0, base ++ [Event.print ("Incorrect. The correct answer is " ++ "1.7")])

/-- check_task2 of exercise01.ipynb, stored answer string "3153600". -/
def check_task2 (response : String) : Nat × List Event :=
  let answer := py_strip (py_lower response)
  let base := [Event.print "Total volume of the aquifer in m^3?",
               Event.input "Your answer in m^3 (eg. 490003): ",
               Event.print ("Your answer : " ++ answer)]
  if answer = "3153600" then
    (1, base ++ [Event.print "Correct!"])
  else
    (0, base ++ [Event.print ("Incorrect. The correct answer is " ++ "3153600")])

/-- check_task3 of exercise01.ipynb, stored answer string "1.9". -/
def check_task3 (response : String) : Nat × List Event :=
  let answer := py_strip (py_lower response)
  let base := [Event.print "Mean thickness the aquifer in meter (rounding to 1 decimal)?",
               Event.input "Your answer in meter (eg. 2.4): ",
               Event.print ("Your answer : " ++ answer)]
  if answer = "1.9" then
    (1, base ++ [Event.print "Correct!"])
  else
    (0, base ++ [Event.print ("Incorrect. The correct answer is " ++ "1.9")])

/-- calculate_flow of the Darcy assessment notebook:
Q = K * i * A (Darcy law flow rate). -/
def calculate_flow (K i A : ℚ) : ℚ := K * i * A

/-- calculate_velocity of AnalysisChallenge.present_challenge:
(K * i) / n, raising ZeroDivisionError when n is zero. -/
def calculate_velocity (K i n : ℚ) : Except String ℚ :=
  if n = 0 then Except.error "ZeroDivisionError"
  else Except.ok ((K * i) / n)

/-- The analyze_parameters handler of AnalysisChallenge: computes the
seepage velocity v and the travel time 500 / v over the 500 m distance
to the well; division raises ZeroDivisionError on a zero denominator. -/
def analyze_parameters (K i n : ℚ) : Except String (ℚ × ℚ) :=
  match calculate_velocity K i n with
  | Except.error e => Except.error e
  | Except.ok v =>
    if v = 0 then Except.error "ZeroDivisionError"
    else Except.ok (v, 500 / v)

/-- calculate_hydraulic_conductivity of the function documentation
template in copilot_instructions.md: q / (gradient * area), raising
ZeroDivisionError when the denominator is zero. -/
def calculate_hydraulic_conductivity (q gradient area : ℚ) : Except String ℚ :=
  if gradient * area = 0 then Except.error "ZeroDivisionError"
  else Except.ok (q / (gradient * area))

/-- The climate data cell of the introduction notebook: tests os.path
existence of data_path, prints a message when it does not exist, and in
both cases continues by calling read_climate_data. -/
def climate_cell (data_path : String) (path_exists : Bool) : List Event :=
  (if path_exists then [] else [Event.print ("Path " ++ data_path ++ " does not exist.")])
    ++ [Event.call "read_climate_data"]

/-- One entry of EvaluationExercise.scenarios. -/
structure Scenario where
  description : String
  correct : Bool
  explanation : String
deriving DecidableEq, Repr

/-- The scenario list built by EvaluationExercise.__init__. -/
def evaluationScenarios : List Scenario :=
  [⟨"Flow through a fractured granite bedrock with large apertures",
    false,
    "Darcy\x27s Law assumes laminar flow through porous media. In large fractures, flow may be turbulent."⟩,
   ⟨"Flow through a homogeneous sand aquifer",
    true,
    "This is an ideal scenario for Darcy\x27s Law - homogeneous porous media with laminar flow."⟩,
   ⟨"Flow in a karst aquifer with large solution channels",
    false,
    "Karst aquifers often exhibit turbulent flow in solution channels, violating Darcy\x27s Law assumptions."⟩]

/-- The state of an EvaluationExercise object: its scenarios field. -/
structure EvaluationExercise where
  scenarios : List Scenario
deriving DecidableEq, Repr

/-- EvaluationExercise() as constructed in the notebook. -/
def EvaluationExercise.init : EvaluationExercise := ⟨evaluationScenarios⟩

/-- The check_answer submit handler closed over one scenario: clears the
output widget, prints the verdict computed from the user selection and
the stored correct flag, and prints the explanation. -/
def check_answer (scenario : Scenario) (selection : String) : List Event :=
  Event.clear ::
    ((if ((selection == "Yes") == scenario.correct) then
        [Event.print "✅ Correct!"]
      else
        [Event.print "❌ Incorrect."])
      ++ [Event.print ("\nExplanation: " ++ scenario.explanation)])

/-- EvaluationExercise.present_scenario with explicit state passing and
with the user response to the built widget supplied as an argument:
indexes the scenario list (IndexError, i.e. none, when out of range),
prints the scenario, and yields the post-call object state together
with the full observable trace including the submit handler output for
the given selection. -/
def EvaluationExercise.present_scenario (self : EvaluationExercise) (index : Nat)
    (selection : String) : Option (EvaluationExercise × List Event) :=
  match self.scenarios.get? index with
  | none => none
  | some scenario =>
    some (self,
      [Event.print ("Scenario: " ++ scenario.description),
       Event.print "\nDoes Darcy\x27s Law apply to this scenario?"]
        ++ check_answer scenario selection)

/-- A sequence of present_scenario calls on one EvaluationExercise
object, threading the object state from call to call; a raised
IndexError aborts the sequence. -/
def runCalls : EvaluationExercise → List (Nat × String) → EvaluationExercise × List (Option (List Event))
  | self, [] => (self, [])
  | self, c :: cs =>
    match EvaluationExercise.present_scenario self c.1 c.2 with
    | none => (self, [none])
    | some (st, tr) =>
      let rest := runCalls st cs
      (rest.1, some tr :: rest.2)

/-- Modelled from the spec: the outputs a stateless object would give,
every call answered from the initial state alone as if it were the
first call made. -/
def statelessOutputs (s : EvaluationExercise) : List (Nat × String) → List (Option (List Event))
  | [] => []
  | c :: cs =>
    match EvaluationExercise.present_scenario s c.1 c.2 with
    | none => [none]
    | some (_, tr) => some tr :: statelessOutputs s cs

/-- The trace present_scenario produces on the homogeneous sand
scenario (index 1) when the user selects Yes. -/
def sandScenarioTrace : List Event :=
  [Event.print ("Scenario: " ++ "Flow through a homogeneous sand aquifer"),
   Event.print "\nDoes Darcy\x27s Law apply to this scenario?",
   Event.clear,
   Event.print "✅ Correct!",
   Event.print ("\nExplanation: " ++ "This is an ideal scenario for Darcy\x27s Law - homogeneous porous media with laminar flow.")]

/-! ### Helper lemmas -/

/-- String append acts on the underlying character lists. -/
lemma append_data (a b : String) : (a ++ b).data = a.data ++ b.data := rfl

/-- Strings with different character lists differ. -/
lemma ne_of_data_ne (a b : String) (h : a.data ≠ b.data) : a ≠ b :=
  fun he => h (congrArg String.data he)

/-- The correct verdict string never coincides with an explanation
line, whatever the explanation text. -/
lemma tick_ne_expl (s : String) : ("✅ Correct!" : String) ≠ "\nExplanation: " ++ s := by
  apply ne_of_data_ne; rw [append_data]; intro h
  have h0 := congrArg List.head? h; simp at h0

/-- The incorrect verdict string never coincides with an explanation
line, whatever the explanation text. -/
lemma cross_ne_expl (s : String) : ("❌ Incorrect." : String) ≠ "\nExplanation: " ++ s := by
  apply ne_of_data_ne; rw [append_data]; intro h
  have h0 := congrArg List.head? h; simp at h0

/-- present_scenario never changes the object state. -/
lemma present_scenario_state (s : EvaluationExercise) (i : Nat) (sel : String)
    (out : EvaluationExercise × List Event)
    (h : EvaluationExercise.present_scenario s i sel = some out) : out.1 = s := by
  unfold EvaluationExercise.present_scenario at h
  cases hsc : s.scenarios.get? i with
  | none => rw [hsc] at h; exact absurd h (by simp)
  | some sc =>
    rw [hsc] at h
    simp only [Option.some.injEq] at h
    rw [← h]

/-- What present_scenario returns on an in-range scenario index. -/
lemma present_scenario_eq (i : Nat) (sel : String) (sc : Scenario)
    (hsc : evaluationScenarios.get? i = some sc) :
    EvaluationExercise.present_scenario EvaluationExercise.init i sel =
      some (EvaluationExercise.init,
        [Event.print ("Scenario: " ++ sc.description),
         Event.print "\nDoes Darcy\x27s Law apply to this scenario?"]
          ++ check_answer sc sel) := by
  unfold EvaluationExercise.present_scenario
  have h : EvaluationExercise.init.scenarios.get? i = some sc := hsc
  rw [h]

/-- Indexing past the three stored scenarios raises IndexError. -/
lemma present_scenario_oob (j : Nat) (hj : 3 ≤ j) (sel : String) :
    EvaluationExercise.present_scenario EvaluationExercise.init j sel = none := by
  unfold EvaluationExercise.present_scenario
  have h : EvaluationExercise.init.scenarios.get? j = none := by
    rw [List.get?_eq_none]
    simpa [EvaluationExercise.init, evaluationScenarios] using hj
  rw [h]

/-- The submit handler prints the correct verdict exactly when the Yes
selection matches the stored flag. -/
lemma check_answer_tick_iff (sel : String) (sc : Scenario) :
    (Event.print "✅ Correct!" ∈ check_answer sc sel) ↔ ((sel == "Yes") = sc.correct) := by
  unfold check_answer
  by_cases hb : ((sel == "Yes") == sc.correct) = true
  · rw [if_pos hb]
    simp only [List.mem_cons, List.mem_append, List.mem_singleton]
    constructor
    · intro _; exact eq_of_beq hb
    · intro _; tauto
  · rw [if_neg hb]
    simp only [List.mem_cons, List.mem_append, List.mem_singleton]
    constructor
    · rintro (h | h | h)
      · exact absurd h (by simp)
      · exact absurd h (by simp)
      · exact absurd h (by simpa using tick_ne_expl sc.explanation)
    · intro h
      exact absurd (beq_iff_eq.mpr h) hb

/-- The submit handler prints the incorrect verdict exactly when the
Yes selection does not match the stored flag. -/
lemma check_answer_cross_iff (sel : String) (sc : Scenario) :
    (Event.print "❌ Incorrect." ∈ check_answer sc sel) ↔ ¬((sel == "Yes") = sc.correct) := by
  unfold check_answer
  by_cases hb : ((sel == "Yes") == sc.correct) = true
  · rw [if_pos hb]
    simp only [List.mem_cons, List.mem_append, List.mem_singleton]
    constructor
    · rintro (h | h | h)
      · exact absurd h (by simp)
      · exact absurd h (by simp)
      · exact absurd h (by simpa using cross_ne_expl sc.explanation)
    · intro h; exact absurd (eq_of_beq hb) h
  · rw [if_neg hb]
    simp only [List.mem_cons, List.mem_append, List.mem_singleton]
    constructor
    · intro _; exact fun h => hb (beq_iff_eq.mpr h)
    · intro _; tauto

/-- The submit handler always prints the explanation line. -/
lemma check_answer_expl_mem (sel : String) (sc : Scenario) :
    Event.print ("\nExplanation: " ++ sc.explanation) ∈ check_answer sc sel := by
  unfold check_answer
  by_cases hb : ((sel == "Yes") == sc.correct) = true
  · rw [if_pos hb]; simp
  · rw [if_neg hb]; simp

/-- Shape of the check_task1 grading: score 1 together with the
Correct print exactly on the stored answer string, score 0 with the
stored-answer reveal otherwise. -/
lemma check_task1_grades (r : String) :
    ((check_task1 r).1 = 1 ∧ Event.print "Correct!" ∈ (check_task1 r).2 ↔
      py_strip (py_lower r) = "1.7") ∧
    ((check_task1 r).1 = 0 ∧
        Event.print ("Incorrect. The correct answer is " ++ "1.7") ∈ (check_task1 r).2 ↔
      py_strip (py_lower r) ≠ "1.7") := by
  by_cases h : py_strip (py_lower r) = "1.7"
  · rw [check_task1]; simp only [h]; decide
  · rw [check_task1]; simp only [if_neg h]; simp [h]

/-- Shape of the check_task2 grading. -/
lemma check_task2_grades (r : String) :
    ((check_task2 r).1 = 1 ∧ Event.print "Correct!" ∈ (check_task2 r).2 ↔
      py_strip (py_lower r) = "3153600") ∧
    ((check_task2 r).1 = 0 ∧
        Event.print ("Incorrect. The correct answer is " ++ "3153600") ∈ (check_task2 r).2 ↔
      py_strip (py_lower r) ≠ "3153600") := by
  by_cases h : py_strip (py_lower r) = "3153600"
  · rw [check_task2]; simp only [h]; decide
  · rw [check_task2]; simp only [if_neg h]; simp [h]

/-- Shape of the check_task3 grading. -/
lemma check_task3_grades (r : String) :
    ((check_task3 r).1 = 1 ∧ Event.print "Correct!" ∈ (check_task3 r).2 ↔
      py_strip (py_lower r) = "1.9") ∧
    ((check_task3 r).1 = 0 ∧
        Event.print ("Incorrect. The correct answer is " ++ "1.9") ∈ (check_task3 r).2 ↔
      py_strip (py_lower r) ≠ "1.9") := by
  by_cases h : py_strip (py_lower r) = "1.9"
  · rw [check_task3]; simp only [h]; decide
  · rw [check_task3]; simp only [if_neg h]; simp [h]

/-! ### Claim theorems -/

/-- Claim C1, counterexample: a Correct/Incorrect verdict on a result
is computed by logic original to this repository: check_task1, a pure
function embedded entirely from repository code with no reference to
the external simulator, decides by itself that the answer 1.7 is
correct (score 1, prints the Correct verdict) and that the answer 2 is
incorrect (score 0, prints the stored correct answer). -/
theorem local_verdict_counterexample :
    (check_task1 "1.7").1 = 1 ∧ Event.print "Correct!" ∈ (check_task1 "1.7").2 ∧
    (check_task1 "2").1 = 0 ∧
    Event.print ("Incorrect. The correct answer is " ++ "1.7") ∈ (check_task1 "2").2 := by
  decide

/-- Claim C1, amended: task-checking operations of the repository do
compute Correct/Incorrect verdicts with repository-local logic alone:
each check_task scores by comparing the processed input against its
stored answer string, and the EvaluationExercise submit handler
computes its verdict from the stored correct flag; none of these
verdicts involves the external simulator. -/
theorem quiz_verdicts_computed_locally (r sel : String) (sc : Scenario) :
    (check_task1 r).1 = (if py_strip (py_lower r) = "1.7" then 1 else 0) ∧
    (check_task2 r).1 = (if py_strip (py_lower r) = "3153600" then 1 else 0) ∧
    (check_task3 r).1 = (if py_strip (py_lower r) = "1.9" then 1 else 0) ∧
    ((Event.print "✅ Correct!" ∈ check_answer sc sel) ↔ ((sel == "Yes") = sc.correct)) := by
  refine ⟨?_, ?_, ?_, check_answer_tick_iff sel sc⟩
  · by_cases h : py_strip (py_lower r) = "1.7" <;> simp [check_task1, h]
  · by_cases h : py_strip (py_lower r) = "3153600" <;> simp [check_task2, h]
  · by_cases h : py_strip (py_lower r) = "1.9" <;> simp [check_task3, h]

/-- Claim C1 witness: the amended statement evaluated at the concrete
response 1.7, selection Yes, and a concrete scenario. -/
theorem quiz_verdicts_computed_locally_witness :
    (check_task1 "1.7").1 = (if py_strip (py_lower "1.7") = "1.7" then 1 else 0) ∧
    (check_task2 "1.7").1 = (if py_strip (py_lower "1.7") = "3153600" then 1 else 0) ∧
    (check_task3 "1.7").1 = (if py_strip (py_lower "1.7") = "1.9" then 1 else 0) ∧
    ((Event.print "✅ Correct!" ∈
        check_answer ⟨"d", true, "e"⟩ "Yes") ↔ (("Yes" == "Yes") = (⟨"d", true, "e"⟩ : Scenario).correct)) :=
  quiz_verdicts_computed_locally "1.7" "Yes" ⟨"d", true, "e"⟩

/-- Claim C2: each quiz-checking function check_task1, check_task2,
check_task3 grades by exact string equality after lowercasing and
stripping: it returns score 1 and prints the Correct verdict exactly
when the processed input equals the stored answer string, and for
every other input returns score 0 and prints the stored correct
answer. -/
theorem check_tasks_grade_by_exact_string (r : String) :
    (((check_task1 r).1 = 1 ∧ Event.print "Correct!" ∈ (check_task1 r).2 ↔
        py_strip (py_lower r) = "1.7") ∧
      ((check_task1 r).1 = 0 ∧
          Event.print ("Incorrect. The correct answer is " ++ "1.7") ∈ (check_task1 r).2 ↔
        py_strip (py_lower r) ≠ "1.7")) ∧
    (((check_task2 r).1 = 1 ∧ Event.print "Correct!" ∈ (check_task2 r).2 ↔
        py_strip (py_lower r) = "3153600") ∧
      ((check_task2 r).1 = 0 ∧
          Event.print ("Incorrect. The correct answer is " ++ "3153600") ∈ (check_task2 r).2 ↔
        py_strip (py_lower r) ≠ "3153600")) ∧
    (((check_task3 r).1 = 1 ∧ Event.print "Correct!" ∈ (check_task3 r).2 ↔
        py_strip (py_lower r) = "1.9") ∧
      ((check_task3 r).1 = 0 ∧
          Event.print ("Incorrect. The correct answer is " ++ "1.9") ∈ (check_task3 r).2 ↔
        py_strip (py_lower r) ≠ "1.9")) :=
  ⟨check_task1_grades r, check_task2_grades r, check_task3_grades r⟩

/-- Claim C2 witness: the numerically equal but textually different
input 1.70 is graded incorrect by check_task1, which reveals the
stored answer. -/
theorem check_tasks_grade_by_exact_string_witness :
    (check_task1 "1.70").1 = 0 ∧
      Event.print ("Incorrect. The correct answer is " ++ "1.7") ∈ (check_task1 "1.70").2 :=
  ((check_tasks_grade_by_exact_string "1.70").1.2).mpr (by decide)

/-- Claim C3, counterexample: not every helper handles its error
condition by printing: the error branch of
calculate_hydraulic_conductivity raises ZeroDivisionError at the
concrete input q = 1, gradient = 0, area = 10, and present_scenario
raises IndexError at index 3. -/
theorem helper_error_raises_counterexample :
    calculate_hydraulic_conductivity 1 0 10 = Except.error "ZeroDivisionError" ∧
    EvaluationExercise.present_scenario EvaluationExercise.init 3 "Yes" = none := by
  constructor
  · norm_num [calculate_hydraulic_conductivity]
  · rfl

/-- Claim C3, amended: the climate data cell handles its error
condition by printing after a path existence check and continues to
call read_climate_data either way, but numeric and indexing helpers do
raise on their error branches: calculate_hydraulic_conductivity raises
ZeroDivisionError exactly when gradient times area is zero, and
present_scenario raises IndexError on every index past the stored
scenarios. -/
theorem error_handling_print_and_raise (p : String) (b : Bool) (q g a : ℚ) :
    ((Event.print ("Path " ++ p ++ " does not exist.") ∈ climate_cell p b) ↔ b = false) ∧
    Event.call "read_climate_data" ∈ climate_cell p b ∧
    (calculate_hydraulic_conductivity q g a = Except.error "ZeroDivisionError" ↔ g * a = 0) ∧
    (∀ j, 3 ≤ j → ∀ sel, EvaluationExercise.present_scenario EvaluationExercise.init j sel = none) := by
  refine ⟨?_, ?_, ?_, fun j hj sel => present_scenario_oob j hj sel⟩
  · cases b <;> simp [climate_cell]
  · cases b <;> simp [climate_cell]
  · unfold calculate_hydraulic_conductivity
    by_cases h : g * a = 0
    · simp [h]
    · simp [h]

/-- Claim C3 witness: the amended statement evaluated at a missing
path and the zero-denominator input. -/
theorem error_handling_print_and_raise_witness :
    Event.print ("Path " ++ "climate" ++ " does not exist.") ∈ climate_cell "climate" false ∧
    Event.call "read_climate_data" ∈ climate_cell "climate" false ∧
    calculate_hydraulic_conductivity 2 0 5 = Except.error "ZeroDivisionError" ∧
    EvaluationExercise.present_scenario EvaluationExercise.init 4 "No" = none := by
  have h := error_handling_print_and_raise "climate" false 2 0 5
  exact ⟨h.1.mpr rfl, h.2.1, h.2.2.1.mpr (by norm_num), h.2.2.2 4 (by norm_num) "No"⟩

/-- Claim C4: the helpers are stateless: a present_scenario call
leaves the EvaluationExercise object exactly as it found it, so a
second invocation with the same arguments and the same user response
produces identical observable results. -/
theorem present_scenario_stateless (s : EvaluationExercise) (i : Nat) (sel : String)
    (out : EvaluationExercise × List Event)
    (h : EvaluationExercise.present_scenario s i sel = some out) :
    out.1 = s ∧
    EvaluationExercise.present_scenario out.1 i sel =
      EvaluationExercise.present_scenario s i sel := by
  have hs : out.1 = s := present_scenario_state s i sel out h
  exact ⟨hs, by rw [hs]⟩

/-- Claim C4 witness: statelessness evaluated on the concrete call at
scenario index 1 with selection Yes. -/
theorem present_scenario_stateless_witness :
    (EvaluationExercise.init, sandScenarioTrace).1 = EvaluationExercise.init ∧
    EvaluationExercise.present_scenario (EvaluationExercise.init, sandScenarioTrace).1 1 "Yes" =
      EvaluationExercise.present_scenario EvaluationExercise.init 1 "Yes" :=
  present_scenario_stateless EvaluationExercise.init 1 "Yes"
    (EvaluationExercise.init, sandScenarioTrace) (by decide)

/-- Claim C5, counterexample: repository code does block waiting for
interactive input from the user: running check_task1 produces an
interactive input read, whatever the response. -/
theorem quiz_blocking_input_counterexample :
    Event.input "Your answer in km^2 (eg. 1.4): " ∈ (check_task1 "2").2 := by
  decide

/-- Claim C5, amended: the exercise quiz functions do block waiting
for interactive input: every run of check_task1, check_task2 and
check_task3 performs exactly one interactive input read. -/
theorem quiz_reads_one_interactive_input (r : String) :
    countInputs (check_task1 r).2 = 1 ∧
    countInputs (check_task2 r).2 = 1 ∧
    countInputs (check_task3 r).2 = 1 := by
  refine ⟨?_, ?_, ?_⟩
  · by_cases h : py_strip (py_lower r) = "1.7" <;> simp [check_task1, h, countInputs]
  · by_cases h : py_strip (py_lower r) = "3153600" <;> simp [check_task2, h, countInputs]
  · by_cases h : py_strip (py_lower r) = "1.9" <;> simp [check_task3, h, countInputs]

/-- Claim C6: the EvaluationExercise support utility has no internal
state machine: over any sequence of present_scenario calls the stored
scenario state never changes, and every call produces exactly the
output it would produce as the first call on the object. -/
theorem support_utilities_no_state_machine (s : EvaluationExercise) (calls : List (Nat × String)) :
    runCalls s calls = (s, statelessOutputs s calls) := by
  induction calls with
  | nil => rfl
  | cons c cs ih =>
    unfold runCalls statelessOutputs
    cases h : EvaluationExercise.present_scenario s c.1 c.2 with
    | none => simp
    | some out =>
      obtain ⟨st, tr⟩ := out
      have hst : st = s := present_scenario_state s c.1 c.2 (st, tr) h
      subst hst
      simp [ih]

/-- Claim C7, counterexample: repository code itself computes
groundwater flow quantities: at the default slider values the embedded
calculate_flow computes the Darcy flow rate, calculate_velocity the
seepage velocity, and analyze_parameters the travel time to the well,
with no external simulator involved. -/
theorem flow_quantities_computed_counterexample :
    calculate_flow 5 (5/1000) 10 = 1/4 ∧
    calculate_velocity 5 (5/1000) (3/10) = Except.ok (1/12) ∧
    analyze_parameters 5 (5/1000) (3/10) = Except.ok (1/12, 6000) := by
  refine ⟨by norm_num [calculate_flow], by norm_num [calculate_velocity], ?_⟩
  norm_num [analyze_parameters, calculate_velocity]

/-- Claim C7, amended: solving the flow and transport partial
differential equations is delegated to the external simulator, but the
assessment notebooks themselves compute simple analytic groundwater
flow quantities: calculate_flow yields the Darcy flow rate K i A, and
analyze_parameters yields the seepage velocity K i over n together
with the travel time over the 500 m distance. -/
theorem repo_computes_flow_quantities (K i n A : ℚ) :
    calculate_flow K i A = K * i * A ∧
    (n ≠ 0 → K * i ≠ 0 →
      analyze_parameters K i n = Except.ok ((K * i) / n, 500 * n / (K * i))) := by
  refine ⟨rfl, fun hn hki => ?_⟩
  have hv : (K * i) / n ≠ 0 := div_ne_zero hki hn
  have h500 : (500 : ℚ) / ((K * i) / n) = 500 * n / (K * i) := by
    field_simp
  unfold analyze_parameters calculate_velocity
  rw [if_neg hn]
  show (if (K * i) / n = 0 then Except.error "ZeroDivisionError"
        else Except.ok ((K * i) / n, 500 / ((K * i) / n))) = _
  rw [if_neg hv, h500]

/-- Claim C7 witness: the amended statement evaluated at the default
slider values of the analysis challenge. -/
theorem repo_computes_flow_quantities_witness :
    calculate_flow 5 (5/1000) 10 = 5 * (5/1000) * 10 ∧
    analyze_parameters 5 (5/1000) (3/10) =
      Except.ok ((5 * (5/1000)) / (3/10), 500 * (3/10) / (5 * (5/1000))) :=
  ⟨(repo_computes_flow_quantities 5 (5/1000) (3/10) 10).1,
   (repo_computes_flow_quantities 5 (5/1000) (3/10) 10).2 (by norm_num) (by norm_num)⟩

/-- Claim C8: calculate_hydraulic_conductivity returns exactly
q / (gradient * area), fails with ZeroDivisionError exactly when
gradient * area is zero, and its error branch is unreachable when both
gradient and area are nonzero; likewise calculate_velocity returns
(K * i) / n and is safe when n is nonzero. -/
theorem division_safety_of_helpers (q g a K i n : ℚ) :
    (calculate_hydraulic_conductivity q g a = Except.error "ZeroDivisionError" ↔ g * a = 0) ∧
    (g ≠ 0 → a ≠ 0 → calculate_hydraulic_conductivity q g a = Except.ok (q / (g * a))) ∧
    (calculate_velocity K i n = Except.error "ZeroDivisionError" ↔ n = 0) ∧
    (n ≠ 0 → calculate_velocity K i n = Except.ok ((K * i) / n)) := by
  refine ⟨?_, fun hg ha => ?_, ?_, fun hn => ?_⟩
  · unfold calculate_hydraulic_conductivity
    by_cases h : g * a = 0
    · simp [h]
    · simp [h]
  · unfold calculate_hydraulic_conductivity
    rw [if_neg (mul_ne_zero hg ha)]
  · unfold calculate_velocity
    by_cases h : n = 0
    · simp [h]
    · simp [h]
  · unfold calculate_velocity
    rw [if_neg hn]

/-- Claim C8 witness: the safety statement evaluated at nonzero
concrete denominators. -/
theorem division_safety_of_helpers_witness :
    calculate_hydraulic_conductivity 1 (1/100) 10 = Except.ok (1 / ((1/100) * 10)) ∧
    calculate_velocity 2 3 (1/2) = Except.ok ((2 * 3) / (1/2)) :=
  ⟨(division_safety_of_helpers 1 (1/100) 10 2 3 (1/2)).2.1 (by norm_num) (by norm_num),
   (division_safety_of_helpers 1 (1/100) 10 2 3 (1/2)).2.2.2 (by norm_num)⟩

/-- Claim C9: on every in-range scenario index the submit handler built
by present_scenario prints the correct verdict exactly when the Yes
selection matches the stored correct flag, prints the incorrect
verdict otherwise, in both cases prints the explanation, and every
index from 3 on raises IndexError. -/
theorem present_scenario_handler_verdict (i : Nat) (sel : String) (sc : Scenario)
    (hsc : evaluationScenarios.get? i = some sc) :
    ((Event.print "✅ Correct!" ∈ check_answer sc sel) ↔ ((sel == "Yes") = sc.correct)) ∧
    ((Event.print "❌ Incorrect." ∈ check_answer sc sel) ↔ ¬((sel == "Yes") = sc.correct)) ∧
    Event.print ("\nExplanation: " ++ sc.explanation) ∈ check_answer sc sel ∧
    (EvaluationExercise.present_scenario EvaluationExercise.init i sel =
      some (EvaluationExercise.init,
        [Event.print ("Scenario: " ++ sc.description),
         Event.print "\nDoes Darcy\x27s Law apply to this scenario?"]
          ++ check_answer sc sel)) ∧
    (∀ j, 3 ≤ j → EvaluationExercise.present_scenario EvaluationExercise.init j sel = none) :=
  ⟨check_answer_tick_iff sel sc, check_answer_cross_iff sel sc,
   check_answer_expl_mem sel sc, present_scenario_eq i sel sc hsc,
   fun j hj => present_scenario_oob j hj sel⟩

/-- Claim C9 witness: the handler verdict characterisation evaluated
on the first scenario (fractured granite, stored flag false) with the
selection Yes. -/
theorem present_scenario_handler_verdict_witness :
    (Event.print "✅ Correct!" ∈
        check_answer ⟨"Flow through a fractured granite bedrock with large apertures",
          false,
          "Darcy\x27s Law assumes laminar flow through porous media. In large fractures, flow may be turbulent."⟩ "Yes") ↔
      (("Yes" == "Yes") =
        (⟨"Flow through a fractured granite bedrock with large apertures",
          false,
          "Darcy\x27s Law assumes laminar flow through porous media. In large fractures, flow may be turbulent."⟩ : Scenario).correct) :=
  (present_scenario_handler_verdict 0 "Yes"
    ⟨"Flow through a fractured granite bedrock with large apertures",
     false,
     "Darcy\x27s Law assumes laminar flow through porous media. In large fractures, flow may be turbulent."⟩ rfl).1
